import Mathlib

/-!
Verification development for the mytrainingos repository.

This file gives a shallow embedding in Lean 4 of the three core components of
the repository and proves properties of them:

* the PMC engine (src/unnamed/part_000, class PMCEngine): a day-indexed TSS
  ledger with exponential chronic/acute load smoothing;
* the TSS calculator (src/js/app.js, class TSSCalculator): cascading per-sport
  stress score formulas;
* the FIT binary parser (src/js/lib/fit-parser.js, class FITParser): the
  definition/data message loop over an in-memory byte buffer.

Modelling conventions:

* JS numbers are modelled as rationals (or as an arbitrary linearly ordered
  field with a floor, so that the PMC smoothing theorems also apply at the real
  instantiation with the actual Math.exp decay constants).
* Calendar day keys (canonical YYYY-MM-DD strings, whose lexicographic order
  is day order and whose setDate(+1) successor is day successor) are modelled
  as integers.
* absent object fields (undefined in JS) are modelled with Option; the JS
  value NaN, where it can arise, is modelled explicitly (as Option.none of a
  dedicated constructor, stated at each definition).
* Math.round rounds half toward positive infinity, which is integer floor of
  x + 1/2.
-/

namespace MyTrainingOS

/-- JS Math.round: rounds half toward positive infinity. -/
def jsRound {α : Type*} [LinearOrderedField α] [FloorRing α] (x : α) : ℤ :=
  ⌊x + 1/2⌋

/-- Math.round(x * 100) / 100, the rounding to 2 decimal places used for IF. -/
def jsRound2 {α : Type*} [LinearOrderedField α] [FloorRing α] (x : α) : α :=
  (jsRound (x * 100) : α) / 100

/-- Math.round(x * 10) / 10, the rounding to 1 decimal place used for PMC entries. -/
def jsRound10 {α : Type*} [LinearOrderedField α] [FloorRing α] (x : α) : α :=
  (jsRound (x * 10) : α) / 10

/-! ## PMC engine (src/unnamed/part_000)

The engine stores a map from date string to daily TSS (dailyTSS) and derives
per-day entries {date, tss, ctl, atl, tsb}.  The decay factors are precomputed
in the constructor as ctlDecay = Math.exp(-1/42), atlDecay = Math.exp(-1/7);
here they are parameters, so the theorems cover every decay value including
the real exponentials (used below for the day-1 numeric claim). -/

/-- One output entry of PMCEngine.calculate: {date, tss, ctl, atl, tsb} with
ctl, atl, tsb stored rounded to 1 decimal. -/
structure PMCEntry (α : Type*) where
  date : ℤ
  tss : α
  ctl : α
  atl : α
  tsb : α
deriving DecidableEq, Repr

namespace PMCEngine

/-- generateDateRange(startDate, endDate): the inclusive run of consecutive
days, empty when endDate is before startDate. -/
def generateDateRange (startDate endDate : ℤ) : List ℤ :=
  (List.range (endDate + 1 - startDate).toNat).map (fun i : ℕ => startDate + (i : ℤ))

/-- this.dailyTSS.get(dateStr) || 0 : look the day up in the ledger, absent
days count as zero stress (a stored 0 also yields 0 through the JS or). -/
def getOr0 {α : Type*} [LinearOrderedField α] (dailyTSS : List (ℤ × α)) (d : ℤ) : α :=
  match dailyTSS.lookup d with
  | some v => v
  | none => 0

/-- Insertion step for the date sort (Array.from(keys).sort() on canonical
date strings is chronological order). -/
def insertSorted (d : ℤ) : List ℤ → List ℤ
  | [] => [d]
  | e :: rest => if d ≤ e then d :: e :: rest else e :: insertSorted d rest

/-- Sorted list of ledger keys. -/
def sortDates (l : List ℤ) : List ℤ := l.foldr insertSorted []

/-- The body of the per-day loop of PMCEngine.calculate: record
tsb = ctl - atl from the pre-update accumulators, then fold the TSS of the day
into ctl and atl, and emit the entry rounded to 1 decimal.  Each emitted
entry is also written to this.pmcData (keyed by its date), so the writes of
one call are exactly the returned list. -/
def calcLoop {α : Type*} [LinearOrderedField α] [FloorRing α]
    (ctlDecay atlDecay : α) (get : ℤ → α) : α → α → List ℤ → List (PMCEntry α)
  | _, _, [] => []
  | ctl, atl, d :: rest =>
    let tss := get d
    let tsb := ctl - atl
    let ctl2 := ctl * ctlDecay + tss * (1 - ctlDecay)
    let atl2 := atl * atlDecay + tss * (1 - atlDecay)
    { date := d, tss := tss, ctl := jsRound10 ctl2, atl := jsRound10 atl2,
      tsb := jsRound10 tsb } :: calcLoop ctlDecay atlDecay get ctl2 atl2 rest

/-- The accumulator state (ctl, atl) after folding a list of days, starting
from a given state.  These are the unrounded internal accumulators. -/
def calcState {α : Type*} [LinearOrderedField α]
    (ctlDecay atlDecay : α) (get : ℤ → α) : α × α → List ℤ → α × α
  | st, [] => st
  | (ctl, atl), d :: rest =>
    let tss := get d
    calcState ctlDecay atlDecay get
      (ctl * ctlDecay + tss * (1 - ctlDecay), atl * atlDecay + tss * (1 - atlDecay)) rest

/-- The list of days PMCEngine.calculate iterates over: empty when the ledger
is empty, otherwise the inclusive range from startDate (default: earliest
ledger day) to endDate (default: today). -/
def calcDates {α : Type*} (dailyTSS : List (ℤ × α))
    (startDate endDate : Option ℤ) (today : ℤ) : List ℤ :=
  match sortDates (dailyTSS.map Prod.fst) with
  | [] => []
  | d0 :: _ => generateDateRange (startDate.getD d0) (endDate.getD today)

/-- PMCEngine.calculate(startDate, endDate): returns [] for an empty ledger;
otherwise runs the smoothing loop from ctl = atl = 0 over the requested
inclusive day range.  The dailyTSS map is an association list, today stands
for new Date(). -/
def calculate {α : Type*} [LinearOrderedField α] [FloorRing α]
    (ctlDecay atlDecay : α) (dailyTSS : List (ℤ × α))
    (startDate endDate : Option ℤ) (today : ℤ) : List (PMCEntry α) :=
  match sortDates (dailyTSS.map Prod.fst) with
  | [] => []
  | d0 :: _ =>
    calcLoop ctlDecay atlDecay (getOr0 dailyTSS) 0 0
      (generateDateRange (startDate.getD d0) (endDate.getD today))

end PMCEngine

/-! ## PMC engine lemmas -/

namespace PMCEngine

variable {α : Type*} [LinearOrderedField α] [FloorRing α]

lemma calcLoop_length (cd ad : α) (get : ℤ → α) (l : List ℤ) :
    ∀ c a, (calcLoop cd ad get c a l).length = l.length := by
  induction l with
  | nil => intro c a; rfl
  | cons d rest ih => intro c a; simp [calcLoop, ih]

lemma calcLoop_map_date (cd ad : α) (get : ℤ → α) (l : List ℤ) :
    ∀ c a, (calcLoop cd ad get c a l).map PMCEntry.date = l := by
  induction l with
  | nil => intro c a; rfl
  | cons d rest ih => intro c a; simp [calcLoop, ih]

lemma calcLoop_append (cd ad : α) (get : ℤ → α) (l1 l2 : List ℤ) :
    ∀ c a, calcLoop cd ad get c a (l1 ++ l2)
      = calcLoop cd ad get c a l1
        ++ calcLoop cd ad get (calcState cd ad get (c, a) l1).1
            (calcState cd ad get (c, a) l1).2 l2 := by
  induction l1 with
  | nil => intro c a; rfl
  | cons d rest ih => intro c a; simp [calcLoop, calcState, ih]

lemma calcLoop_tsb (cd ad : α) (get : ℤ → α) (l : List ℤ) :
    ∀ (c a : α) (i : ℕ) (h : i < (calcLoop cd ad get c a l).length),
      ((calcLoop cd ad get c a l).get ⟨i, h⟩).tsb
        = jsRound10 ((calcState cd ad get (c, a) (l.take i)).1
            - (calcState cd ad get (c, a) (l.take i)).2) := by
  induction l with
  | nil => intro c a i h; simp [calcLoop] at h
  | cons d rest ih =>
    intro c a i h
    cases i with
    | zero => simp [calcLoop, calcState]
    | succ n =>
      have h2 : n < (calcLoop cd ad get (c * cd + get d * (1 - cd))
          (a * ad + get d * (1 - ad)) rest).length := by
        have := h
        simp [calcLoop, calcLoop_length] at this ⊢
        omega
      calc ((calcLoop cd ad get c a (d :: rest)).get ⟨n + 1, h⟩).tsb
          = ((calcLoop cd ad get (c * cd + get d * (1 - cd))
              (a * ad + get d * (1 - ad)) rest).get ⟨n, h2⟩).tsb := rfl
        _ = _ := by
              rw [ih]
              simp [calcState]

lemma calculate_eq (cd ad : α) (L : List (ℤ × α)) (s e : Option ℤ) (today : ℤ) :
    calculate cd ad L s e today
      = calcLoop cd ad (getOr0 L) 0 0 (calcDates L s e today) := by
  unfold calculate calcDates
  cases sortDates (L.map Prod.fst) <;> rfl

lemma generateDateRange_split (a T k : ℤ) (hk : 0 ≤ k) :
    ∃ t, generateDateRange a (T + k) = generateDateRange a T ++ t
      ∧ ∀ d ∈ t, T < d := by
  refine ⟨(generateDateRange a (T + k)).drop (T + 1 - a).toNat, ?_, ?_⟩
  · conv_lhs =>
      rw [← List.take_append_drop ((T + 1 - a).toNat) (generateDateRange a (T + k))]
    congr 1
    unfold generateDateRange
    rw [← List.map_take, List.take_range]
    congr 2
    omega
  · intro d hd
    obtain ⟨j, hj, hval⟩ := List.mem_iff_getElem.mp hd
    have hjlen : (T + 1 - a).toNat + j < (generateDateRange a (T + k)).length := by
      rw [List.length_drop] at hj
      omega
    rw [List.getElem_drop] at hval
    unfold generateDateRange at hval hjlen
    simp only [List.length_map, List.length_range] at hjlen
    rw [List.getElem_map, List.getElem_range] at hval
    omega

end PMCEngine

/-! ## The real decay constants of the PMCEngine constructor -/

namespace PMCEngine

/-- this.ctlDecay = Math.exp(-1 / this.CTL_DECAY) with CTL_DECAY = 42. -/
noncomputable def ctlDecayJS : ℝ := Real.exp (-(1/42))

/-- this.atlDecay = Math.exp(-1 / this.ATL_DECAY) with ATL_DECAY = 7. -/
noncomputable def atlDecayJS : ℝ := Real.exp (-(1/7))

lemma ctlDecayJS_bounds : (9755/10000 : ℝ) < ctlDecayJS ∧ ctlDecayJS ≤ 9765/10000 := by
  have habs : |(-(1/42) : ℝ)| = 1/42 := by
    rw [abs_neg, abs_of_nonneg (by norm_num : (0:ℝ) ≤ 1/42)]
  have hx : |(-(1/42) : ℝ)| ≤ 1 := by
    rw [habs]
    norm_num
  have h := @Real.exp_bound (-(1/42)) hx 3 (by norm_num)
  have hsum : ∑ m ∈ Finset.range 3, (-(1/42) : ℝ) ^ m / m.factorial = 3445/3528 := by
    simp [Finset.sum_range_succ, Nat.factorial]
    norm_num
  rw [hsum, habs] at h
  have h2 := abs_le.mp h
  norm_num [Nat.factorial] at h2
  unfold ctlDecayJS
  constructor <;> linarith [h2.1, h2.2]

lemma atlDecayJS_bounds : (8665/10000 : ℝ) < atlDecayJS ∧ atlDecayJS ≤ 8675/10000 := by
  have habs : |(-(1/7) : ℝ)| = 1/7 := by
    rw [abs_neg, abs_of_nonneg (by norm_num : (0:ℝ) ≤ 1/7)]
  have hx : |(-(1/7) : ℝ)| ≤ 1 := by
    rw [habs]
    norm_num
  have h := @Real.exp_bound (-(1/7)) hx 4 (by norm_num)
  have hsum : ∑ m ∈ Finset.range 4, (-(1/7) : ℝ) ^ m / m.factorial = 5352/6174 := by
    simp [Finset.sum_range_succ, Nat.factorial]
    norm_num
  rw [hsum, habs] at h
  have h2 := abs_le.mp h
  norm_num [Nat.factorial] at h2
  unfold atlDecayJS
  constructor <;> linarith [h2.1, h2.2]

lemma jsRound10_of_bounds (x : ℝ) (z : ℤ) (h1 : (z : ℝ) ≤ x * 10 + 1/2)
    (h2 : x * 10 + 1/2 < z + 1) : jsRound10 x = (z : ℝ) / 10 := by
  unfold jsRound10 jsRound
  rw [Int.floor_eq_iff.mpr ⟨h1, h2⟩]

/-- Shared evaluation: starting from ctl = atl = 0, a single ledger day with
TSS = 100 produces the entry {tsb = 0, ctl = 2.4, atl = 13.3} at the real
decay constants (unrounded ctl is 100(1 - e^(-1/42)) = 2.3528..., unrounded
atl is 100(1 - e^(-1/7)) = 13.3122...). -/
lemma pmc_day1_entry :
    calculate ctlDecayJS atlDecayJS [((0 : ℤ), (100 : ℝ))] none (some 0) 0
      = [{ date := 0, tss := 100, ctl := 24/10, atl := 133/10, tsb := 0 }] := by
  rw [calculate_eq]
  have hdates : calcDates [((0 : ℤ), (100 : ℝ))] none (some 0) 0 = [0] := rfl
  rw [hdates]
  have hget : getOr0 [((0 : ℤ), (100 : ℝ))] 0 = 100 := rfl
  have hctl := ctlDecayJS_bounds
  have hatl := atlDecayJS_bounds
  simp only [calcLoop, hget]
  refine List.cons_eq_cons.mpr ⟨?_, rfl⟩
  simp only [PMCEntry.mk.injEq, zero_mul, zero_add, sub_zero, sub_self]
  refine ⟨trivial, trivial, ?_, ?_, ?_⟩
  · rw [jsRound10_of_bounds _ 24 (by linarith [hctl.1, hctl.2]) (by linarith [hctl.1, hctl.2])]
    norm_num
  · rw [jsRound10_of_bounds _ 133 (by linarith [hatl.1, hatl.2]) (by linarith [hatl.1, hatl.2])]
    norm_num
  · rw [jsRound10_of_bounds _ 0 (by norm_num) (by norm_num)]
    norm_num

end PMCEngine

/-! ## Claim theorems for the PMC engine -/

/-- C4: for every ledger content and every requested range, every PMCEntry
produced by calculate has tsb equal to round(ctl_before - atl_before, 1),
where ctl_before and atl_before are the unrounded accumulator values before
folding in the TSS of that day. -/
theorem c4_tsb_uses_pre_update_state {α : Type*} [LinearOrderedField α] [FloorRing α]
    (ctlDecay atlDecay : α) (ledger : List (ℤ × α)) (startDate endDate : Option ℤ)
    (today : ℤ) (i : ℕ)
    (h : i < (PMCEngine.calculate ctlDecay atlDecay ledger startDate endDate today).length) :
    ((PMCEngine.calculate ctlDecay atlDecay ledger startDate endDate today).get ⟨i, h⟩).tsb
      = jsRound10 ((PMCEngine.calcState ctlDecay atlDecay (PMCEngine.getOr0 ledger) (0, 0)
            ((PMCEngine.calcDates ledger startDate endDate today).take i)).1
          - (PMCEngine.calcState ctlDecay atlDecay (PMCEngine.getOr0 ledger) (0, 0)
            ((PMCEngine.calcDates ledger startDate endDate today).take i)).2) := by
  have hlen := h
  rw [PMCEngine.calculate_eq] at hlen
  have := PMCEngine.calcLoop_tsb ctlDecay atlDecay (PMCEngine.getOr0 ledger)
    (PMCEngine.calcDates ledger startDate endDate today) 0 0 i hlen
  simpa [PMCEngine.calculate_eq] using this

/-- C4 witness: a concrete two-day run; the tsb of the second entry is the rounded
difference of the accumulators after the first day only. -/
theorem c4_tsb_uses_pre_update_state_witness :
    ((PMCEngine.calculate (1/2 : ℚ) (1/4) [((0 : ℤ), (8 : ℚ))] none (some 1) 0).getD 1
       ⟨0, 0, 0, 0, 0⟩).tsb
      = jsRound10 ((PMCEngine.calcState (1/2 : ℚ) (1/4)
            (PMCEngine.getOr0 [((0 : ℤ), (8 : ℚ))]) (0, 0)
            ((PMCEngine.calcDates [((0 : ℤ), (8 : ℚ))] none (some 1) 0).take 1)).1
          - (PMCEngine.calcState (1/2 : ℚ) (1/4)
            (PMCEngine.getOr0 [((0 : ℤ), (8 : ℚ))]) (0, 0)
            ((PMCEngine.calcDates [((0 : ℤ), (8 : ℚ))] none (some 1) 0).take 1)).2) := by
  have hlen : 1 < (PMCEngine.calculate (1/2 : ℚ) (1/4) [((0 : ℤ), (8 : ℚ))]
      none (some 1) 0).length := by decide
  have h := c4_tsb_uses_pre_update_state (1/2 : ℚ) (1/4) [((0 : ℤ), (8 : ℚ))]
    none (some 1) 0 1 hlen
  rw [List.getD_eq_getElem _ _ hlen]
  simpa using h

/-- C6: computing over the range from the earliest ledger date to T and over
the range to T + k (k nonnegative) agree: the shorter run is an initial
segment of the longer one, and every entry of the longer run dated at most T
already occurs in the shorter run. -/
theorem c6_range_superset_consistency {α : Type*} [LinearOrderedField α] [FloorRing α]
    (ctlDecay atlDecay : α) (ledger : List (ℤ × α)) (today T k : ℤ) (hk : 0 ≤ k) :
    (∃ t, PMCEngine.calculate ctlDecay atlDecay ledger none (some (T + k)) today
        = PMCEngine.calculate ctlDecay atlDecay ledger none (some T) today ++ t)
    ∧ ∀ e ∈ PMCEngine.calculate ctlDecay atlDecay ledger none (some (T + k)) today,
        e.date ≤ T →
        e ∈ PMCEngine.calculate ctlDecay atlDecay ledger none (some T) today := by
  rw [PMCEngine.calculate_eq, PMCEngine.calculate_eq]
  unfold PMCEngine.calcDates
  cases hsort : PMCEngine.sortDates (ledger.map Prod.fst) with
  | nil =>
    exact ⟨⟨[], rfl⟩, by intro e he; simp [PMCEngine.calcLoop] at he⟩
  | cons d0 _ =>
    obtain ⟨t, ht, htgt⟩ := PMCEngine.generateDateRange_split d0 T k hk
    simp only [Option.getD_some, Option.getD_none] at *
    rw [ht, PMCEngine.calcLoop_append]
    constructor
    · exact ⟨_, rfl⟩
    · intro e he hle
      rcases List.mem_append.mp he with h1 | h2
      · exact h1
      · exfalso
        have : e.date ∈ t := by
          have := List.mem_map_of_mem PMCEntry.date h2
          rwa [PMCEngine.calcLoop_map_date] at this
        exact absurd hle (not_le.mpr (htgt _ this))

/-- C6 witness: concrete one-day ledger, T = 0, k = 1; the one-day run is the
take-1 initial segment of the two-day run. -/
theorem c6_range_superset_consistency_witness :
    (PMCEngine.calculate (1/2 : ℚ) (1/4) [((0 : ℤ), (5 : ℚ))] none (some (0 + 1)) 0).take 1
      = PMCEngine.calculate (1/2 : ℚ) (1/4) [((0 : ℤ), (5 : ℚ))] none (some 0) 0 := by
  obtain ⟨t, ht⟩ := (c6_range_superset_consistency (1/2 : ℚ) (1/4)
    [((0 : ℤ), (5 : ℚ))] 0 0 1 (by decide)).1
  rw [ht]
  have hlen : (PMCEngine.calculate (1/2 : ℚ) (1/4) [((0 : ℤ), (5 : ℚ))]
      none (some 0) 0).length = 1 := by decide
  rw [← hlen, List.take_left]

/-- C7 (amended): with an empty accumulator state and a single ledger day with
TSS = 100, the entry computed for that day under the update rules with
decayCTL = e^(-1/42) and decayATL = e^(-1/7) has tsb = 0, stored ctl = 2.4
(unrounded 100(1 - e^(-1/42)) = 2.3528...) and stored atl = 13.3 (unrounded
100(1 - e^(-1/7)) = 13.3122...), not ctl = 2.34 and atl = 13.08. -/
theorem c7_day1_values :
    PMCEngine.calculate PMCEngine.ctlDecayJS PMCEngine.atlDecayJS
        [((0 : ℤ), (100 : ℝ))] none (some 0) 0
      = [{ date := 0, tss := 100, ctl := 24/10, atl := 133/10, tsb := 0 }] :=
  PMCEngine.pmc_day1_entry

/-- C7 counterexample: the day-1 stored atl is 13.3, which is not within 0.1
of the claimed approximate value 13.08 (the unrounded value is 13.312..., not
13.08). -/
theorem c7_day1_values_counterexample :
    (PMCEngine.calculate PMCEngine.ctlDecayJS PMCEngine.atlDecayJS
        [((0 : ℤ), (100 : ℝ))] none (some 0) 0).map PMCEntry.atl = [133/10]
    ∧ ¬ |(133/10 : ℝ) - 1308/100| ≤ 1/10 := by
  constructor
  · rw [PMCEngine.pmc_day1_entry]
    rfl
  · rw [show (133/10 : ℝ) - 1308/100 = 22/100 by norm_num,
      abs_of_nonneg (by norm_num : (0:ℝ) ≤ 22/100)]
    norm_num

/-- C10: with an empty daily-TSS ledger, calculate returns the empty list for
every requested range (and hence writes no PMC entries, since the writes of a
call are exactly the returned entries). -/
theorem c10_empty_ledger_empty_result {α : Type*} [LinearOrderedField α] [FloorRing α]
    (ctlDecay atlDecay : α) (startDate endDate : Option ℤ) (today : ℤ) :
    PMCEngine.calculate ctlDecay atlDecay ([] : List (ℤ × α)) startDate endDate today
      = [] := rfl

/-! ## TSS calculator (src/js/app.js, class TSSCalculator)

Activity fields are JS numbers or absent; none models an absent (undefined)
field.  JS truthiness on such a field: undefined and 0 are falsy, any other
number is truthy. -/

/-- The activity shape consumed by TSSCalculator.calculate. -/
structure ActivityIn where
  sport : String
  totalTime : Option ℚ
  totalDistance : Option ℚ
  normalizedPower : Option ℚ
  avgPower : Option ℚ
  avgHeartRate : Option ℚ
deriving DecidableEq, Repr

/-- Threshold configuration held by a TSSCalculator instance.  The
constructor (settings.ftp || 300, ...) and updateSettings (if (settings.ftp)
...) only ever store truthy, hence nonzero, numbers in these fields. -/
structure TSSSettings where
  ftp : ℚ
  runThreshold : ℚ
  swimThreshold : ℚ
  lthr : ℚ
deriving DecidableEq, Repr

/-- The constructor defaults: FTP 300 W, run threshold 256 s/km ("4:16"),
swim threshold 100 s/100m ("1:40"), LTHR 155 bpm. -/
def defaultSettings : TSSSettings :=
  { ftp := 300, runThreshold := 256, swimThreshold := 100, lthr := 155 }

/-- The result shape of the calculator.  tss is none exactly when the JS
value is NaN (Math.round(undefined / 60) in the ultimate fallback); the
formatted pace display string of the running/swimming branches is carried
here only as paceSeconds, its numeric source. -/
structure TSSResult where
  tss : Option ℤ
  type : String
  IF : ℚ
  np : Option ℤ := none
  paceSeconds : Option ℚ := none
  avgHR : Option ℚ := none
  method : String
deriving DecidableEq, Repr

namespace TSSCalculator

/-- JS truthiness of a possibly-absent numeric field. -/
def truthyQ : Option ℚ → Bool
  | none => false
  | some q => decide (q ≠ 0)

/-- Fallback chain end: calculateHRBasedTSS.  The guard !duration || !avgHR
selects the ultimate duration-based estimate; the hrReserve local of the
source is dead code and not carried.  Option.getD 0 extracts a field the
truthiness guard has already proved present. -/
def calculateHRBasedTSS (s : TSSSettings) (a : ActivityIn) : TSSResult :=
  if truthyQ a.totalTime && truthyQ a.avgHeartRate then
    let duration := a.totalTime.getD 0
    let avgHR := a.avgHeartRate.getD 0
    let IF := avgHR / s.lthr
    let durationHours := duration / 3600
    let hrTss := durationHours * IF ^ 2 * 100
    { tss := some (jsRound hrTss), type := "hrTSS", IF := jsRound2 IF,
      avgHR := some avgHR, method := "heart_rate" }
  else
    { tss := a.totalTime.map (fun d => jsRound (d / 60)), type := "TSS",
      IF := 7/10, method := "duration_estimate" }

/-- calculateCyclingTSS: np = activity.normalizedPower || activity.avgPower;
without usable power or duration it falls through to the HR-based path. -/
def calculateCyclingTSS (s : TSSSettings) (a : ActivityIn) : TSSResult :=
  let np := if truthyQ a.normalizedPower then a.normalizedPower else a.avgPower
  if truthyQ np && truthyQ a.totalTime then
    let npv := np.getD 0
    let duration := a.totalTime.getD 0
    let IF := npv / s.ftp
    let tss := duration * npv * IF / (s.ftp * 3600) * 100
    { tss := some (jsRound tss), type := "TSS", IF := jsRound2 IF,
      np := some (jsRound npv), method := "power" }
  else calculateHRBasedTSS s a

/-- calculateRunningTSS: requires truthy duration and distance with
distance at least 100 m, else falls through to the HR-based path. -/
def calculateRunningTSS (s : TSSSettings) (a : ActivityIn) : TSSResult :=
  if truthyQ a.totalTime && truthyQ a.totalDistance
      && !decide (a.totalDistance.getD 0 < 100) then
    let duration := a.totalTime.getD 0
    let distance := a.totalDistance.getD 0
    let paceSecsPerKm := duration / (distance / 1000)
    let IF := s.runThreshold / paceSecsPerKm
    let durationHours := duration / 3600
    let rtss := durationHours * IF ^ 2 * 100
    { tss := some (jsRound rtss), type := "rTSS", IF := jsRound2 IF,
      paceSeconds := some paceSecsPerKm, method := "pace" }
  else calculateHRBasedTSS s a

/-- calculateSwimmingTSS: requires truthy duration and distance with
distance at least 25 m, else falls through to the HR-based path. -/
def calculateSwimmingTSS (s : TSSSettings) (a : ActivityIn) : TSSResult :=
  if truthyQ a.totalTime && truthyQ a.totalDistance
      && !decide (a.totalDistance.getD 0 < 25) then
    let duration := a.totalTime.getD 0
    let distance := a.totalDistance.getD 0
    let pacePer100m := duration / (distance / 100)
    let IF := s.swimThreshold / pacePer100m
    let durationHours := duration / 3600
    let stss := IF ^ 3 * durationHours * 100
    { tss := some (jsRound stss), type := "sTSS", IF := jsRound2 IF,
      paceSeconds := some pacePer100m, method := "pace" }
  else calculateHRBasedTSS s a

/-- TSSCalculator.calculate: sport-keyed dispatch, defaulting to the
HR-based fallback. -/
def calculate (s : TSSSettings) (a : ActivityIn) : TSSResult :=
  match a.sport with
  | "cycling" => calculateCyclingTSS s a
  | "running" => calculateRunningTSS s a
  | "swimming" => calculateSwimmingTSS s a
  | _ => calculateHRBasedTSS s a

/-- Result of the static pace-string parser: JS null, JS NaN, or a number of
seconds. -/
inductive PaceResult where
  | null : PaceResult
  | nan : PaceResult
  | val (n : ℤ) : PaceResult
deriving DecidableEq, Repr

/-- Decimal digit value. -/
def decDigit (c : Char) : Option ℕ :=
  if '0' ≤ c ∧ c ≤ '9' then some (c.toNat - '0'.toNat) else none

/-- Hexadecimal digit value. -/
def hexDigit (c : Char) : Option ℕ :=
  if '0' ≤ c ∧ c ≤ '9' then some (c.toNat - '0'.toNat)
  else if 'a' ≤ c ∧ c ≤ 'f' then some (c.toNat - 'a'.toNat + 10)
  else if 'A' ≤ c ∧ c ≤ 'F' then some (c.toNat - 'A'.toNat + 10)
  else none

/-- Whitespace skipped by JS parseInt. -/
def jsIsSpace (c : Char) : Bool :=
  c = ' ' || c = '\t' || c = '\n' || c = '\r' || c = '\x0b' || c = '\x0c'

/-- Accumulate the value of the leading digit run (parseInt stops at the
first character that is not a digit of the radix). -/
def digitsVal (f : Char → Option ℕ) (base : ℕ) : List Char → ℕ → ℕ
  | [], acc => acc
  | c :: cs, acc =>
    match f c with
    | some d => digitsVal f base cs (acc * base + d)
    | none => acc

/-- Whether the input starts with at least one digit of the radix (otherwise
parseInt yields NaN). -/
def hasLeadingDigit (f : Char → Option ℕ) : List Char → Bool
  | [] => false
  | c :: _ => (f c).isSome

/-- JS parseInt(string) with no radix argument, over the character list of
the string: skip whitespace, optional sign, auto-detect a 0x/0X hexadecimal
prefix, parse the leading digit run; none models the NaN result when no
digit follows. -/
def jsParseInt (chars : List Char) : Option ℤ :=
  let cs := chars.dropWhile jsIsSpace
  let signed : ℤ × List Char :=
    match cs with
    | '-' :: rest => (-1, rest)
    | '+' :: rest => (1, rest)
    | _ => (1, cs)
  match signed.2 with
  | '0' :: x :: rest =>
    if x = 'x' ∨ x = 'X' then
      if hasLeadingDigit hexDigit rest then
        some (signed.1 * digitsVal hexDigit 16 rest 0)
      else none
    else some (signed.1 * digitsVal decDigit 10 ('0' :: x :: rest) 0)
  | other =>
    if hasLeadingDigit decDigit other then
      some (signed.1 * digitsVal decDigit 10 other 0)
    else none

/-- JS String.prototype.split(sep) for the one-character separator used by
parsePace: splits at every colon and keeps empty parts, so the result always
has one more part than there are colons. -/
def splitOnColon : List Char → List (List Char)
  | [] => [[]]
  | c :: rest =>
    if c = ':' then [] :: splitOnColon rest
    else
      match splitOnColon rest with
      | p :: ps => (c :: p) :: ps
      | [] => [[c]]

/-- TSSCalculator.parsePace: split on the colon; null unless exactly two
parts; otherwise parseInt(parts[0]) * 60 + parseInt(parts[1]), which is NaN
(not null) when either parseInt yields NaN. -/
def parsePace (paceString : String) : PaceResult :=
  let parts := splitOnColon paceString.toList
  if parts.length ≠ 2 then .null
  else
    match jsParseInt (parts.getD 0 []), jsParseInt (parts.getD 1 []) with
    | some m, some s => .val (m * 60 + s)
    | _, _ => .nan

end TSSCalculator

/-! ## TSS calculator lemmas -/

lemma jsRound_eq_of_bounds {α : Type*} [LinearOrderedField α] [FloorRing α]
    (x : α) (z : ℤ) (h1 : (z : α) ≤ x + 1/2) (h2 : x + 1/2 < z + 1) :
    jsRound x = z := by
  unfold jsRound
  exact Int.floor_eq_iff.mpr ⟨h1, h2⟩

/-- The running activity of the spec example: runThreshold 256 s/km (the
default), totalDistance 10000 m, totalTime 2560 s. -/
def runExample : ActivityIn :=
  { sport := "running", totalTime := some 2560, totalDistance := some 10000,
    normalizedPower := none, avgPower := none, avgHeartRate := none }

/-- Shared evaluation of the calculator on the running example: the pace is
2560/(10000/1000) = 256 s/km, IF = 256/256 = 1, and the rounded rTSS is
round(2560/3600 * 1 * 100) = round(71.1) = 71. -/
lemma runExample_eval :
    TSSCalculator.calculate defaultSettings runExample
      = { tss := some 71, type := "rTSS", IF := 1, np := none,
          paceSeconds := some 256, avgHR := none, method := "pace" } := by
  have e : TSSCalculator.calculate defaultSettings runExample
      = { tss := some (jsRound ((2560 : ℚ) / 3600
              * (256 / (2560 / (10000 / 1000))) ^ 2 * 100)),
          type := "rTSS",
          IF := jsRound2 ((256 : ℚ) / (2560 / (10000 / 1000))),
          np := none,
          paceSeconds := some ((2560 : ℚ) / (10000 / 1000)),
          avgHR := none, method := "pace" } := rfl
  rw [e]
  have h1 : jsRound ((2560 : ℚ) / 3600 * (256 / (2560 / (10000 / 1000))) ^ 2 * 100)
      = 71 := jsRound_eq_of_bounds _ _ (by norm_num) (by norm_num)
  have h2 : jsRound ((256 : ℚ) / (2560 / (10000 / 1000)) * 100)
      = 100 := jsRound_eq_of_bounds _ _ (by norm_num) (by norm_num)
  simp only [TSSResult.mk.injEq, h1, jsRound2, h2]
  norm_num

/-! ## Claim theorems for the TSS calculator -/

/-- C2 counterexample: for the running example (runThreshold 256 s/km,
distance 10000 m, duration 2560 s) the code computes
rTSS = round(2560/3600 * 1^2 * 100) = 71, not 100. -/
theorem c2_running_example_counterexample :
    (TSSCalculator.calculate defaultSettings runExample).tss = some 71
    ∧ some (71 : ℤ) ≠ some 100 := by
  refine ⟨?_, by decide⟩
  rw [runExample_eval]

/-- C2 (amended): for the running example the calculator produces
pace = 256 s/km and IF = 1.00 as claimed, but tss = 71 (the integer rounding
of duration_hours * IF^2 * 100 = 2560/3600 * 100 = 71.1), not 100. -/
theorem c2_running_example_values :
    TSSCalculator.calculate defaultSettings runExample
      = { tss := some 71, type := "rTSS", IF := 1, np := none,
          paceSeconds := some 256, avgHR := none, method := "pace" } :=
  runExample_eval

/-- C3 counterexample: an activity with no sport-specific data and an absent
totalTime reaches the ultimate fallback, where Math.round(undefined / 60) is
NaN, so the returned tss is not an integer. -/
theorem c3_never_fails_counterexample :
    (TSSCalculator.calculate defaultSettings
        { sport := "generic", totalTime := none, totalDistance := none,
          normalizedPower := none, avgPower := none, avgHeartRate := none }).tss
      = none := rfl

/-- C3 (amended): for every activity and every threshold setting, calculate
returns a result whose method is one of power, pace, heart_rate,
duration_estimate and whose IF is a whole number of hundredths; its tss is an
integer exactly when totalTime is present (an absent totalTime always ends in
the ultimate fallback, whose Math.round(undefined / 60) is NaN); and whenever
the HR branch lacks a usable duration-and-heart-rate pair it returns
tss = round(duration minutes) with IF = 0.7 and method duration_estimate. -/
theorem c3_calculate_total (s : TSSSettings) (a : ActivityIn) :
    ((TSSCalculator.calculate s a).method
        ∈ ["power", "pace", "heart_rate", "duration_estimate"])
    ∧ (∃ m : ℤ, (TSSCalculator.calculate s a).IF = (m : ℚ) / 100)
    ∧ ((TSSCalculator.calculate s a).tss.isSome ↔ a.totalTime.isSome)
    ∧ ((TSSCalculator.truthyQ a.totalTime && TSSCalculator.truthyQ a.avgHeartRate)
          = false →
        TSSCalculator.calculateHRBasedTSS s a
          = { tss := a.totalTime.map (fun d => jsRound (d / 60)), type := "TSS",
              IF := 7/10, method := "duration_estimate" }) := by
  have truthy_some : ∀ o : Option ℚ, TSSCalculator.truthyQ o = true → o.isSome := by
    intro o h
    cases o with
    | none => simp [TSSCalculator.truthyQ] at h
    | some q => simp
  have hrP : ((TSSCalculator.calculateHRBasedTSS s a).method
        ∈ ["power", "pace", "heart_rate", "duration_estimate"])
      ∧ (∃ m : ℤ, (TSSCalculator.calculateHRBasedTSS s a).IF = (m : ℚ) / 100)
      ∧ ((TSSCalculator.calculateHRBasedTSS s a).tss.isSome ↔ a.totalTime.isSome) := by
    by_cases h : (TSSCalculator.truthyQ a.totalTime
        && TSSCalculator.truthyQ a.avgHeartRate) = true
    · obtain ⟨h1, _⟩ := Bool.and_eq_true_iff.mp h
      simp only [TSSCalculator.calculateHRBasedTSS, if_pos h]
      refine ⟨by simp, ⟨jsRound (a.avgHeartRate.getD 0 / s.lthr * 100), rfl⟩, ?_⟩
      simp [truthy_some _ h1]
    · simp only [TSSCalculator.calculateHRBasedTSS, if_neg h]
      exact ⟨by simp, ⟨70, by norm_num⟩, by simp⟩
  have fallback : (TSSCalculator.truthyQ a.totalTime
        && TSSCalculator.truthyQ a.avgHeartRate) = false →
      TSSCalculator.calculateHRBasedTSS s a
        = { tss := a.totalTime.map (fun d => jsRound (d / 60)), type := "TSS",
            IF := 7/10, method := "duration_estimate" } := by
    intro h
    unfold TSSCalculator.calculateHRBasedTSS
    rw [h]
    rfl
  have main : ((TSSCalculator.calculate s a).method
        ∈ ["power", "pace", "heart_rate", "duration_estimate"])
      ∧ (∃ m : ℤ, (TSSCalculator.calculate s a).IF = (m : ℚ) / 100)
      ∧ ((TSSCalculator.calculate s a).tss.isSome ↔ a.totalTime.isSome) := by
    unfold TSSCalculator.calculate
    split
    · simp only [TSSCalculator.calculateCyclingTSS]
      by_cases h : (TSSCalculator.truthyQ (if TSSCalculator.truthyQ a.normalizedPower
            then a.normalizedPower else a.avgPower)
          && TSSCalculator.truthyQ a.totalTime) = true
      · obtain ⟨_, h2⟩ := Bool.and_eq_true_iff.mp h
        simp only [if_pos h]
        refine ⟨by simp, ⟨jsRound ((if TSSCalculator.truthyQ a.normalizedPower
          then a.normalizedPower else a.avgPower).getD 0 / s.ftp * 100), rfl⟩, ?_⟩
        simp [truthy_some _ h2]
      · simp only [if_neg h]
        exact hrP
    · simp only [TSSCalculator.calculateRunningTSS]
      by_cases h : (TSSCalculator.truthyQ a.totalTime
          && TSSCalculator.truthyQ a.totalDistance
          && !decide (a.totalDistance.getD 0 < 100)) = true
      · obtain ⟨h0, _⟩ := Bool.and_eq_true_iff.mp h
        obtain ⟨h1, _⟩ := Bool.and_eq_true_iff.mp h0
        simp only [if_pos h]
        refine ⟨by simp, ⟨jsRound (s.runThreshold
          / (a.totalTime.getD 0 / (a.totalDistance.getD 0 / 1000)) * 100), rfl⟩, ?_⟩
        simp [truthy_some _ h1]
      · simp only [if_neg h]
        exact hrP
    · simp only [TSSCalculator.calculateSwimmingTSS]
      by_cases h : (TSSCalculator.truthyQ a.totalTime
          && TSSCalculator.truthyQ a.totalDistance
          && !decide (a.totalDistance.getD 0 < 25)) = true
      · obtain ⟨h0, _⟩ := Bool.and_eq_true_iff.mp h
        obtain ⟨h1, _⟩ := Bool.and_eq_true_iff.mp h0
        simp only [if_pos h]
        refine ⟨by simp, ⟨jsRound (s.swimThreshold
          / (a.totalTime.getD 0 / (a.totalDistance.getD 0 / 100)) * 100), rfl⟩, ?_⟩
        simp [truthy_some _ h1]
      · simp only [if_neg h]
        exact hrP
    · exact hrP
  exact ⟨main.1, main.2.1, main.2.2, fallback⟩

/-- C3 witness: the amended theorem applied at a concrete activity with an
absent totalTime and absent heart rate discharges the fallback hypothesis and
yields the concrete duration-estimate result. -/
theorem c3_calculate_total_witness :
    TSSCalculator.calculateHRBasedTSS defaultSettings
        { sport := "generic", totalTime := none, totalDistance := none,
          normalizedPower := none, avgPower := none, avgHeartRate := none }
      = { tss := none, type := "TSS", IF := 7/10, np := none,
          paceSeconds := none, avgHR := none, method := "duration_estimate" } := by
  have h := (c3_calculate_total defaultSettings
    { sport := "generic", totalTime := none, totalDistance := none,
      normalizedPower := none, avgPower := none, avgHeartRate := none }).2.2.2
  simpa using h rfl

/-- C8 counterexample: for the input "a:b" the two colon-delimited parts are
not integers, yet parsePace returns NaN (parseInt("a") * 60 + parseInt("b")),
not the null sentinel the claim requires. -/
theorem c8_parsePace_counterexample :
    TSSCalculator.parsePace "a:b" = TSSCalculator.PaceResult.nan
    ∧ TSSCalculator.parsePace "a:b" ≠ TSSCalculator.PaceResult.null := by
  refine ⟨rfl, ?_⟩
  intro h
  exact absurd h (by decide)

/-- C8 (amended): parsePace returns the null sentinel exactly when splitting
the input on the colon does not yield exactly two parts (that is, the string
does not contain exactly one colon); when it does yield two parts, the result
is parseInt(minutes) * 60 + parseInt(seconds), which is NaN — not null — when
either part lacks a leading integer. -/
theorem c8_parsePace_null_iff (s : String) :
    TSSCalculator.parsePace s = TSSCalculator.PaceResult.null
      ↔ (TSSCalculator.splitOnColon s.toList).length ≠ 2 := by
  simp only [TSSCalculator.parsePace]
  split_ifs with h
  · simpa [String.toList] using h
  · simp only [h, iff_false]
    split <;> simp


/-! ## FIT parser (src/js/lib/fit-parser.js, class FITParser)

The byte buffer is a list of byte values.  DataView reads return none when
out of bounds, which in JS throws a RangeError; inside readFieldValue that
throw is caught and turned into null, everywhere else it aborts the decode.

Field values and the activity scalar fields are JS values: undefined, null,
a number, NaN, or the byte array returned for field widths other than
1/2/4.  ToNumber coercion is modelled for exactly these shapes (a
one-element array coerces to its element, the empty array to 0, a longer
array to NaN); the JS string-concatenation behavior of + on arrays is not
reachable with number-valued operands and is modelled as NaN via the same
coercion. -/

namespace FITParser

/-- A JS value as it can appear in a decoded field-value map or an activity
scalar field. -/
inductive JsVal where
  | undefv : JsVal
  | nullv : JsVal
  | num (q : ℚ) : JsVal
  | nan : JsVal
  | arr (bs : List ℕ) : JsVal
deriving DecidableEq, Repr

/-- JS truthiness: 0, NaN, null and undefined are falsy; every other number
and every array (even empty) is truthy. -/
def truthy : JsVal → Bool
  | .num q => decide (q ≠ 0)
  | .arr _ => true
  | _ => false

/-- The JS logical or: the first operand when truthy, the second otherwise. -/
def jsOr (a b : JsVal) : JsVal := if truthy a then a else b

/-- JS ToNumber on the shapes above; none encodes NaN. -/
def toNumber : JsVal → Option ℚ
  | .undefv => none
  | .nullv => some 0
  | .num q => some q
  | .nan => none
  | .arr [] => some 0
  | .arr [b] => some (b : ℚ)
  | .arr _ => none

/-- v / c for a numeric constant c (nonzero at every use site). -/
def jsDiv (a : JsVal) (c : ℚ) : JsVal :=
  match toNumber a with
  | some q => .num (q / c)
  | none => .nan

/-- v * c. -/
def jsMul (a : JsVal) (c : ℚ) : JsVal :=
  match toNumber a with
  | some q => .num (q * c)
  | none => .nan

/-- v - c. -/
def jsSub (a : JsVal) (c : ℚ) : JsVal :=
  match toNumber a with
  | some q => .num (q - c)
  | none => .nan

/-- a + b on two JS values (used where both operands are numeric). -/
def jsAdd (a b : JsVal) : JsVal :=
  match toNumber a, toNumber b with
  | some x, some y => .num (x + y)
  | _, _ => .nan

/-- a / b on two JS values (used with a positivity-guarded divisor). -/
def jsDivJ (a b : JsVal) : JsVal :=
  match toNumber a, toNumber b with
  | some x, some y => .num (x / y)
  | _, _ => .nan

/-- c < v in JS (false when either side is NaN). -/
def jsGt (a : JsVal) (c : ℚ) : Bool :=
  match toNumber a with
  | some q => decide (c < q)
  | none => false

/-- Math.round of a JS value (NaN stays NaN). -/
def jsRoundJs (v : JsVal) : JsVal :=
  match toNumber v with
  | some q => .num ((jsRound q : ℤ) : ℚ)
  | none => .nan

/-- Math.pow(v, 4). -/
def jsPow4 (v : JsVal) : JsVal :=
  match toNumber v with
  | some q => .num (q ^ 4)
  | none => .nan

/-- Math.pow(v, 0.25): the fourth root is not rational, so it is a parameter
(root4) of the decode; it only ever applies to the normalized-power mean. -/
def jsRoot4 (root4 : ℚ → ℚ) (v : JsVal) : JsVal :=
  match toNumber v with
  | some q => .num (root4 q)
  | none => .nan

/-- reduce((a, b) => a + b, 0). -/
def jsSum (l : List JsVal) : JsVal := l.foldl jsAdd (.num 0)

/-- One record (sample) message, global message number 20. -/
structure FitRecord where
  timestamp : Option ℚ
  heartRate : JsVal
  power : JsVal
  speed : JsVal
  cadence : JsVal
  distance : JsVal
  altitude : JsVal
  latitude : JsVal
  longitude : JsVal
deriving DecidableEq, Repr

/-- One lap message, global message number 19. -/
structure FitLap where
  startTime : Option ℚ
  totalTime : JsVal
  totalDistance : JsVal
  avgHeartRate : JsVal
  maxHeartRate : JsVal
  avgPower : JsVal
  avgSpeed : JsVal
  avgCadence : JsVal
deriving DecidableEq, Repr

/-- One session message, global message number 18. -/
structure FitSession where
  startTime : Option ℚ
  totalTime : JsVal
  totalDistance : JsVal
  avgHeartRate : JsVal
  maxHeartRate : JsVal
  avgPower : JsVal
  normalizedPower : JsVal
  avgSpeed : JsVal
  avgCadence : JsVal
  totalCalories : JsVal
  sport : String
  subSport : String
deriving DecidableEq, Repr

/-- The activity aggregate built during one parse call.  startTime holds the
millisecond value of the Date (none = null); avgPace is absent from the
initial object literal, hence undefined. -/
structure ActivityP where
  sport : String
  subSport : String
  startTime : Option ℚ
  totalTime : JsVal
  totalDistance : JsVal
  totalCalories : JsVal
  avgHeartRate : JsVal
  maxHeartRate : JsVal
  avgPower : JsVal
  normalizedPower : JsVal
  avgSpeed : JsVal
  avgCadence : JsVal
  avgPace : JsVal
  records : List FitRecord
  laps : List FitLap
  sessions : List FitSession
deriving DecidableEq, Repr

/-- The activity object literal at the top of parse. -/
def initActivity : ActivityP :=
  { sport := "unknown", subSport := "unknown", startTime := none,
    totalTime := .num 0, totalDistance := .num 0, totalCalories := .num 0,
    avgHeartRate := .nullv, maxHeartRate := .nullv, avgPower := .nullv,
    normalizedPower := .nullv, avgSpeed := .nullv, avgCadence := .nullv,
    avgPace := .undefv, records := [], laps := [], sessions := [] }

/-- this.sportTypes: the sport-code table of the constructor. -/
def sportTypes (q : ℚ) : Option String :=
  if q = 0 then some "generic"
  else if q = 1 then some "running"
  else if q = 2 then some "cycling"
  else if q = 5 then some "swimming"
  else if q = 10 then some "fitness_equipment"
  else if q = 11 then some "swimming"
  else if q = 17 then some "cycling"
  else if q = 18 then some "running"
  else none

/-- this.subSportTypes. -/
def subSportTypes (q : ℚ) : Option String :=
  if q = 0 then some "generic"
  else if q = 1 then some "treadmill"
  else if q = 2 then some "street"
  else if q = 3 then some "trail"
  else if q = 4 then some "track"
  else if q = 5 then some "spin"
  else if q = 6 then some "indoor_cycling"
  else if q = 7 then some "road"
  else if q = 8 then some "mountain"
  else if q = 14 then some "open_water"
  else if q = 17 then some "lap_swimming"
  else if q = 23 then some "virtual_activity"
  else if q = 58 then some "navigate"
  else none

/-- this.sportTypes[values[5]] with fallback "unknown": JS property lookup coerces the
key to a string; a number hits the table directly, a one-element array hits
via its element, everything else misses. -/
def lookupSport (v : JsVal) : String :=
  match v with
  | .num q => (sportTypes q).getD "unknown"
  | .arr [b] => (sportTypes (b : ℚ)).getD "unknown"
  | _ => "unknown"

/-- this.subSportTypes[values[6]] with fallback "unknown". -/
def lookupSubSport (v : JsVal) : String :=
  match v with
  | .num q => (subSportTypes q).getD "unknown"
  | .arr [b] => (subSportTypes (b : ℚ)).getD "unknown"
  | _ => "unknown"

/-- The decoded field-value map of one data message (values[fieldNum]);
absent keys read as undefined. -/
abbrev Values : Type := ℕ → JsVal

/-- Map with every key absent. -/
def emptyValues : Values := fun _ => .undefv

/-- values[k] = v. -/
def setValue (vs : Values) (k : ℕ) (v : JsVal) : Values :=
  fun i => if i = k then v else vs i

/-- convertTimestamp: null for a falsy input, otherwise the Date at
(fitTimestamp + 631065600) * 1000 ms (FIT epoch 1989-12-31T00:00:00Z).
The only truthy shapes reaching this in a decode are numbers and arrays;
a multi-element array would build an Invalid Date in JS and is mapped
through the 0 coercion here (unreachable for the properties proved). -/
def convertTimestamp (v : JsVal) : Option ℚ :=
  if truthy v then some (((toNumber v).getD 0 + 631065600) * 1000) else none

/-- processRecord: build one sample from the field-value map and append it
to activity.records. -/
def processRecord (values : Values) (a : ActivityP) : ActivityP :=
  let record : FitRecord :=
    { timestamp := convertTimestamp (values 253),
      heartRate := jsOr (values 3) .nullv,
      power := jsOr (values 7) .nullv,
      speed := if truthy (values 6) then jsMul (jsDiv (values 6) 1000) (36/10)
               else .nullv,
      cadence := jsOr (values 4) .nullv,
      distance := if truthy (values 5) then jsDiv (values 5) 100 else .nullv,
      altitude := if truthy (values 2) then jsSub (jsDiv (values 2) 5) 500
                  else .nullv,
      latitude := if truthy (values 0) then jsMul (values 0) (180 / 2147483648)
                  else .nullv,
      longitude := if truthy (values 1) then jsMul (values 1) (180 / 2147483648)
                   else .nullv }
  { a with records := a.records ++ [record] }

/-- processLap: build one lap and append it to activity.laps. -/
def processLap (values : Values) (a : ActivityP) : ActivityP :=
  let lap : FitLap :=
    { startTime := convertTimestamp (jsOr (values 253) (values 2)),
      totalTime := jsDiv (jsOr (values 7) (jsOr (values 8) (.num 0))) 1000,
      totalDistance := jsDiv (jsOr (values 9) (.num 0)) 100,
      avgHeartRate := jsOr (values 15) .nullv,
      maxHeartRate := jsOr (values 16) .nullv,
      avgPower := jsOr (values 19) .nullv,
      avgSpeed := if truthy (values 13) then jsMul (jsDiv (values 13) 1000) (36/10)
                  else .nullv,
      avgCadence := jsOr (values 17) .nullv }
  { a with laps := a.laps ++ [lap] }

/-- processSession: build one session, append it, accumulate the totals
additively, and overwrite the scalar averages last-truthy-wins. -/
def processSession (values : Values) (a : ActivityP) : ActivityP :=
  let session : FitSession :=
    { startTime := convertTimestamp (jsOr (values 253) (values 2)),
      totalTime := jsDiv (jsOr (values 7) (.num 0)) 1000,
      totalDistance := jsDiv (jsOr (values 9) (.num 0)) 100,
      avgHeartRate := jsOr (values 16) .nullv,
      maxHeartRate := jsOr (values 17) .nullv,
      avgPower := jsOr (values 20) .nullv,
      normalizedPower := jsOr (values 34) .nullv,
      avgSpeed := if truthy (values 14) then jsMul (jsDiv (values 14) 1000) (36/10)
                  else .nullv,
      avgCadence := jsOr (values 18) .nullv,
      totalCalories := jsOr (values 11) (.num 0),
      sport := lookupSport (values 5),
      subSport := lookupSubSport (values 6) }
  let a1 := { a with sessions := a.sessions ++ [session] }
  let a2 := if a1.startTime.isNone then { a1 with startTime := session.startTime }
            else a1
  let a3 := { a2 with
    totalTime := jsAdd a2.totalTime session.totalTime,
    totalDistance := jsAdd a2.totalDistance session.totalDistance,
    totalCalories := jsAdd a2.totalCalories session.totalCalories,
    sport := session.sport, subSport := session.subSport }
  let a4 := if truthy session.avgHeartRate then
              { a3 with avgHeartRate := session.avgHeartRate } else a3
  let a5 := if truthy session.maxHeartRate then
              { a4 with maxHeartRate := session.maxHeartRate } else a4
  let a6 := if truthy session.avgPower then
              { a5 with avgPower := session.avgPower } else a5
  let a7 := if truthy session.normalizedPower then
              { a6 with normalizedPower := session.normalizedPower } else a6
  let a8 := if truthy session.avgSpeed then
              { a7 with avgSpeed := session.avgSpeed } else a7
  if truthy session.avgCadence then { a8 with avgCadence := session.avgCadence }
  else a8

/-- processMessage: dispatch on the global message number; session (18),
lap (19) and record (20) update the activity, every other kind (file_id 0,
event 21, device_info 23, ...) is discarded. -/
def processMessage (globalMsgNum : ℕ) (values : Values) (a : ActivityP) : ActivityP :=
  match globalMsgNum with
  | 18 => processSession values a
  | 19 => processLap values a
  | 20 => processRecord values a
  | _ => a

/-- The in-memory byte buffer. -/
abbrev Buf : Type := List ℕ

/-- dataView.getUint8(i): none models the RangeError thrown out of bounds. -/
def byteAt (buf : Buf) (i : ℕ) : Option ℕ := List.get? buf i

/-- dataView.getUint16(i, littleEndian). -/
def getUint16 (buf : Buf) (i : ℕ) (le : Bool) : Option ℕ :=
  match byteAt buf i, byteAt buf (i+1) with
  | some b0, some b1 => some (if le then b0 + 256 * b1 else b1 + 256 * b0)
  | _, _ => none

/-- dataView.getUint32(i, littleEndian). -/
def getUint32 (buf : Buf) (i : ℕ) (le : Bool) : Option ℕ :=
  match byteAt buf i, byteAt buf (i+1), byteAt buf (i+2), byteAt buf (i+3) with
  | some b0, some b1, some b2, some b3 =>
    some (if le then b0 + 256 * b1 + 65536 * b2 + 16777216 * b3
          else b3 + 256 * b2 + 65536 * b1 + 16777216 * b0)
  | _, _, _, _ => none

/-- Reinterpret an unsigned 32-bit value as the signed getInt32 result. -/
def toInt32 (u : ℕ) : ℤ :=
  if u < 2147483648 then (u : ℤ) else (u : ℤ) - 4294967296

/-- One 3-byte field tuple of a definition message: field id, byte width,
base-type tag. -/
structure FieldDef where
  num : ℕ
  size : ℕ
  type : ℕ
deriving DecidableEq, Repr

/-- The schema registered for one local slot. -/
structure MsgDef where
  globalMsgNum : ℕ
  fields : List FieldDef
  isLittleEndian : Bool
deriving DecidableEq, Repr

/-- this.localMessageTypes: the local-slot schema registry, an instance
field initialized once in the constructor. -/
abbrev Registry : Type := ℕ → Option MsgDef

/-- The registry as the constructor leaves it. -/
def emptyRegistry : Registry := fun _ => none

/-- this.localMessageTypes[slot] = def. -/
def setRegistry (r : Registry) (k : ℕ) (m : MsgDef) : Registry :=
  fun i => if i = k then some m else r i

/-- readFieldValue: widths 1/2/4 read an integer (4-byte values signed only
for base types 0x85/0x84), any other width reads the raw byte run; the
surrounding try/catch turns an out-of-bounds read into null. -/
def readFieldValue (buf : Buf) (offset : ℕ) (field : FieldDef)
    (isLittleEndian : Bool) : JsVal :=
  match field.size with
  | 1 =>
    match byteAt buf offset with
    | some b => .num b
    | none => .nullv
  | 2 =>
    match getUint16 buf offset isLittleEndian with
    | some v => .num v
    | none => .nullv
  | 4 =>
    match getUint32 buf offset isLittleEndian with
    | some v =>
      if field.type = 0x85 ∨ field.type = 0x84 then .num (toInt32 v : ℚ)
      else .num v
    | none => .nullv
  | n =>
    if offset + n ≤ buf.length then .arr ((buf.drop offset).take n)
    else .nullv

/-- The field loop of a data message: read each field at the running offset,
store it under its field id (later duplicates overwrite), and advance the
offset by the declared size whether or not the read succeeded. -/
def readFields (buf : Buf) (le : Bool) : List FieldDef → ℕ → Values → ℕ × Values
  | [], offset, vs => (offset, vs)
  | f :: rest, offset, vs =>
    readFields buf le rest (offset + f.size)
      (setValue vs f.num (readFieldValue buf offset f le))

/-- The 3-byte field-definition tuples of a definition message; an
out-of-bounds read here is not caught and aborts the message. -/
def readFieldDefs (buf : Buf) : ℕ → ℕ → Except Unit (ℕ × List FieldDef)
  | offset, 0 => .ok (offset, [])
  | offset, n+1 =>
    match byteAt buf offset, byteAt buf (offset+1), byteAt buf (offset+2) with
    | some a, some b, some c =>
      match readFieldDefs buf (offset+3) n with
      | .ok (off2, rest) => .ok (off2, ⟨a, b, c⟩ :: rest)
      | .error e => .error e
    | _, _, _ => .error ()

/-- The mutable state of one FITParser instance that parse touches: the
local-slot registry and the activity being built. -/
structure ParserSt where
  reg : Registry
  act : ActivityP

/-- parseMessage: one record header plus one definition or data message.
The error is the uncaught RangeError of an out-of-bounds read.  A data
message whose local slot has no registered schema consumes only the header
byte.  The registry is assigned only after every read of a definition
message succeeded. -/
def parseMessage (buf : Buf) (offset : ℕ) (st : ParserSt) :
    Except Unit (ℕ × ParserSt) :=
  match byteAt buf offset with
  | none => .error ()
  | some recordHeader =>
    let offset1 := offset + 1
    let isDefinition := recordHeader &&& 0x40 ≠ 0
    let localMessageType := recordHeader &&& 0x0F
    let hasDevData := recordHeader &&& 0x20 ≠ 0
    if isDefinition then
      match byteAt buf (offset1 + 1) with
      | none => .error ()
      | some architecture =>
        let offset2 := offset1 + 2
        let isLittleEndian := architecture = 0
        match (if isLittleEndian then getUint16 buf offset2 true
               else getUint16 buf offset2 false) with
        | none => .error ()
        | some globalMsgNum =>
          let offset3 := offset2 + 2
          match byteAt buf offset3 with
          | none => .error ()
          | some numFields =>
            match readFieldDefs buf (offset3 + 1) numFields with
            | .error _ => .error ()
            | .ok (offset4, fields) =>
              if hasDevData then
                match byteAt buf offset4 with
                | none => .error ()
                | some numDevFields =>
                  .ok (offset4 + 1 + 3 * numDevFields,
                    { st with reg := (setRegistry st.reg localMessageType
                        ⟨globalMsgNum, fields, isLittleEndian⟩) })
              else
                .ok (offset4,
                  { st with reg := (setRegistry st.reg localMessageType
                      ⟨globalMsgNum, fields, isLittleEndian⟩) })
    else
      match st.reg localMessageType with
      | some msgDef =>
        let rf := readFields buf msgDef.isLittleEndian msgDef.fields offset1
          emptyValues
        .ok (rf.1, { st with
          act := (processMessage msgDef.globalMsgNum rf.2 st.act) })
      | none => .ok (offset1, st)

/-- The while (offset < endOffset) message loop.  Every message consumes at
least its header byte, so the offset strictly increases and the loop runs at
most endOffset iterations; the fuel argument is initialized to endOffset and
can therefore never run out before the loop condition fails.  The Bool
records whether a RangeError aborted the loop (the parse try/catch rethrows
it); the state mutated so far is kept either way. -/
def parseLoop (buf : Buf) (endOffset : ℕ) : ℕ → ℕ → ParserSt → ParserSt × Bool
  | 0, _, st => (st, false)
  | fuel+1, offset, st =>
    if offset < endOffset then
      match parseMessage buf offset st with
      | .error _ => (st, true)
      | .ok (offset2, st2) => parseLoop buf endOffset fuel offset2 st2
    else (st, false)

/-- The rolling means of the normalized-power pass: for each window end i
from windowSize - 1 to the last sample, the mean of the window of the last
windowSize power values. -/
def rollingMeans (windowSize : ℕ) (powerValues : List JsVal) : List JsVal :=
  (List.range (powerValues.length - (windowSize - 1))).map
    (fun k => jsDiv (jsSum ((powerValues.drop k).take windowSize)) windowSize)

/-- calculateDerivedMetrics: the post-loop pass that computes normalized
power (30-sample rolling mean to the 4th power, averaged, 4th root, rounded)
and back-fills avgPower, avgHeartRate, avgSpeed and the sport pace. -/
def calculateDerivedMetrics (root4 : ℚ → ℚ) (a : ActivityP) : ActivityP :=
  let records := a.records.filter (fun r => truthy r.power)
  let b :=
    if records.length > 0 then
      let b1 :=
        if !truthy a.normalizedPower && records.length > 30 then
          let windowSize := 30
          let powerValues := records.map (fun r => jsOr r.power (.num 0))
          let rollingPower := rollingMeans windowSize powerValues
          if rollingPower.length > 0 then
            let fourthPower := rollingPower.map jsPow4
            let avgFourth := jsDiv (jsSum fourthPower) fourthPower.length
            { a with normalizedPower := jsRoundJs (jsRoot4 root4 avgFourth) }
          else a
        else a
      if !truthy b1.avgPower then
        let validPower := records.filter (fun r => truthy r.power && jsGt r.power 0)
        if validPower.length > 0 then
          { b1 with avgPower := jsRoundJs (jsDiv
              (jsSum (validPower.map (fun r => r.power))) validPower.length) }
        else b1
      else b1
    else a
  let c :=
    if !truthy b.avgHeartRate then
      let validHR := b.records.filter (fun r => truthy r.heartRate && jsGt r.heartRate 0)
      if validHR.length > 0 then
        { b with avgHeartRate := jsRoundJs (jsDiv
            (jsSum (validHR.map (fun r => r.heartRate))) validHR.length) }
      else b
    else b
  let d :=
    if !truthy c.avgSpeed && c.records.length > 0 then
      let validSpeed := c.records.filter (fun r => truthy r.speed && jsGt r.speed 0)
      if validSpeed.length > 0 then
        { c with avgSpeed := (jsDiv (jsSum (validSpeed.map (fun r => r.speed)))
            validSpeed.length) }
      else c
    else c
  let e :=
    if d.sport = "swimming" && jsGt d.totalDistance 0 && jsGt d.totalTime 0 then
      { d with avgPace := jsDivJ (jsDiv d.totalTime 60) (jsDiv d.totalDistance 100) }
    else d
  if e.sport = "running" && jsGt e.totalDistance 0 && jsGt e.totalTime 0 then
    { e with avgPace := jsDivJ (jsDiv e.totalTime 60) (jsDiv e.totalDistance 1000) }
  else e

/-- The decode error: the explicit signature check throws
the invalid-signature Error; every other abort is the uncaught
RangeError of a DataView read (rethrown by the catch block). -/
inductive FitError where
  | formatError : FitError
  | rangeError : FitError
deriving DecidableEq, Repr

/-- The 4 ASCII bytes ".FIT". -/
def fitSignature : List ℕ := [0x2E, 0x46, 0x49, 0x54]

/-- The header reads of parse, in source order: headerSize (byte 0),
protocolVersion (byte 1), dataSize (little-endian 32-bit at byte 4), and the
4 signature bytes 8..11; the first out-of-bounds read throws. -/
def parseHeaderBytes (buf : Buf) : Option (ℕ × ℕ × List ℕ) :=
  match byteAt buf 0, byteAt buf 1, getUint32 buf 4 true,
        byteAt buf 8, byteAt buf 9, byteAt buf 10, byteAt buf 11 with
  | some hs, some _, some ds, some s0, some s1, some s2, some s3 =>
    some (hs, ds, [s0, s1, s2, s3])
  | _, _, _, _, _, _, _ => none

/-- FITParser.parse(buffer).  The registry is instance state: it enters the
call as the caller left it and leaves mutated, never reset by parse itself.
root4 stands for Math.pow(-, 0.25) (only used by the derived-metrics pass).
The catch block logs and rethrows, so errors propagate unchanged. -/
def parseFIT (root4 : ℚ → ℚ) (reg : Registry) (buf : Buf) :
    Except FitError ActivityP × Registry :=
  match parseHeaderBytes buf with
  | none => (.error .rangeError, reg)
  | some (headerSize, dataSize, signature) =>
    if signature ≠ fitSignature then (.error .formatError, reg)
    else
      let endOffset := headerSize + dataSize
      match parseLoop buf endOffset endOffset headerSize
          { reg := reg, act := initActivity } with
      | (st, true) => (.error .rangeError, st.reg)
      | (st, false) => (.ok (calculateDerivedMetrics root4 st.act), st.reg)

end FITParser


/-! ## Claim theorems for the FIT parser -/

/-- C9: a data message (record-header bit 0x40 clear) whose low-4-bit local
slot has no registered schema consumes exactly the one header byte: the
returned offset is offset + 1 and the parser state is untouched, so the
bytes of the message body are subsequently read as record headers (the
stream desynchronizes) instead of the message being skipped whole. -/
theorem c9_unknown_slot_consumes_header_only (buf : FITParser.Buf) (offset : ℕ)
    (st : FITParser.ParserSt) (hb : ℕ)
    (h1 : FITParser.byteAt buf offset = some hb)
    (h2 : hb &&& 0x40 = 0)
    (h3 : st.reg (hb &&& 0x0F) = none) :
    FITParser.parseMessage buf offset st = .ok (offset + 1, st) := by
  unfold FITParser.parseMessage
  rw [h1]
  simp only [h2, h3]
  simp

/-- C9 witness: a one-byte buffer whose single byte is the data-message
header for the unregistered slot 2. -/
theorem c9_unknown_slot_consumes_header_only_witness :
    FITParser.parseMessage [2] 0 ⟨FITParser.emptyRegistry, FITParser.initActivity⟩
      = .ok (0 + 1, ⟨FITParser.emptyRegistry, FITParser.initActivity⟩) :=
  c9_unknown_slot_consumes_header_only [2] 0
    ⟨FITParser.emptyRegistry, FITParser.initActivity⟩ 2 rfl (by decide) rfl


/-! ## FIT parser header lemmas -/

namespace FITParser

lemma byteAt_eq_some_get (buf : Buf) (i : ℕ) (h : i < buf.length) :
    byteAt buf i = some (buf.get ⟨i, h⟩) := List.get?_eq_get h

lemma getUint32_exists (buf : Buf) (i : ℕ) (le : Bool) (h : i + 4 ≤ buf.length) :
    ∃ v, getUint32 buf i le = some v := by
  unfold getUint32
  rw [byteAt_eq_some_get buf i (by omega), byteAt_eq_some_get buf (i+1) (by omega),
    byteAt_eq_some_get buf (i+2) (by omega), byteAt_eq_some_get buf (i+3) (by omega)]
  exact ⟨_, rfl⟩

lemma parseHeaderBytes_none_iff (buf : Buf) :
    parseHeaderBytes buf = none ↔ buf.length < 12 := by
  constructor
  · intro h
    by_contra hlen
    push_neg at hlen
    obtain ⟨v, hv⟩ := getUint32_exists buf 4 true (by omega)
    unfold parseHeaderBytes at h
    rw [byteAt_eq_some_get buf 0 (by omega), byteAt_eq_some_get buf 1 (by omega), hv,
      byteAt_eq_some_get buf 8 (by omega), byteAt_eq_some_get buf 9 (by omega),
      byteAt_eq_some_get buf 10 (by omega), byteAt_eq_some_get buf 11 (by omega)] at h
    simp at h
  · intro h
    have h11 : byteAt buf 11 = none := List.get?_eq_none.mpr (by omega)
    unfold parseHeaderBytes
    cases byteAt buf 0 <;> cases byteAt buf 1 <;> cases getUint32 buf 4 true <;>
      cases byteAt buf 8 <;> cases byteAt buf 9 <;> cases byteAt buf 10 <;>
      simp [h11]

lemma drop8_take4 (buf : Buf) (h : 12 ≤ buf.length) :
    (buf.drop 8).take 4
      = [buf.get ⟨8, by omega⟩, buf.get ⟨9, by omega⟩,
         buf.get ⟨10, by omega⟩, buf.get ⟨11, by omega⟩] := by
  rw [List.drop_eq_getElem_cons (by omega : 8 < buf.length),
    List.drop_eq_getElem_cons (by omega : 9 < buf.length),
    List.drop_eq_getElem_cons (by omega : 10 < buf.length),
    List.drop_eq_getElem_cons (by omega : 11 < buf.length)]
  simp only [List.take_succ_cons, List.take_zero]
  simp

lemma parseHeaderBytes_eq_some (buf : Buf) (h : 12 ≤ buf.length) :
    parseHeaderBytes buf
      = some (buf.get ⟨0, by omega⟩,
          (getUint32 buf 4 true).getD 0, (buf.drop 8).take 4) := by
  obtain ⟨v, hv⟩ := getUint32_exists buf 4 true (by omega)
  unfold parseHeaderBytes
  rw [byteAt_eq_some_get buf 0 (by omega), byteAt_eq_some_get buf 1 (by omega), hv,
    byteAt_eq_some_get buf 8 (by omega), byteAt_eq_some_get buf 9 (by omega),
    byteAt_eq_some_get buf 10 (by omega), byteAt_eq_some_get buf 11 (by omega),
    drop8_take4 buf h]
  simp

lemma loopResult_ne_format (root4 : ℚ → ℚ) (buf : Buf)
    (endOffset fuel offset : ℕ) (st : ParserSt) :
    (match parseLoop buf endOffset fuel offset st with
     | (st2, true) => ((.error .rangeError : Except FitError ActivityP), st2.reg)
     | (st2, false) => (.ok (calculateDerivedMetrics root4 st2.act), st2.reg)).1
      ≠ .error .formatError := by
  rcases parseLoop buf endOffset fuel offset st with ⟨st2, b⟩
  cases b <;> simp

end FITParser

/-- C1 (amended): decode aborts with the FormatError exactly when the four
signature bytes are readable (the buffer has at least the 12 header bytes)
and differ from ".FIT".  With a valid signature the decode does not always
return an Activity: an out-of-bounds read outside readFieldValue (a record
header or definition-message body past the end of the buffer, as with
truncated trailing bytes) aborts with an uncaught RangeError; only
data-message field values are absorbed as null. -/
theorem c1_format_error_iff (root4 : ℚ → ℚ) (reg : FITParser.Registry)
    (buf : FITParser.Buf) :
    (FITParser.parseFIT root4 reg buf).1 = .error .formatError
      ↔ 12 ≤ buf.length ∧ (buf.drop 8).take 4 ≠ FITParser.fitSignature := by
  by_cases hlen : 12 ≤ buf.length
  · unfold FITParser.parseFIT
    rw [FITParser.parseHeaderBytes_eq_some buf hlen]
    dsimp only
    by_cases hsig : (buf.drop 8).take 4 = FITParser.fitSignature
    · rw [if_neg (fun hc => hc hsig)]
      exact iff_of_false (FITParser.loopResult_ne_format root4 _ _ _ _ _)
        (fun hc => hc.2 hsig)
    · rw [if_pos hsig]
      exact iff_of_true rfl ⟨hlen, hsig⟩
  · unfold FITParser.parseFIT
    rw [(FITParser.parseHeaderBytes_none_iff buf).mpr (by omega)]
    dsimp only
    exact iff_of_false (by simp) (fun hc => hlen hc.1)

/-- The C1 counterexample buffer: a valid 14-byte header (signature ".FIT")
whose declared payload length is 1 byte, with no payload bytes present —
exactly the truncated-trailing-bytes shape the claim says is absorbed as
null. -/
def bufC1 : FITParser.Buf :=
  [14, 16, 0, 0, 1, 0, 0, 0, 0x2E, 0x46, 0x49, 0x54, 0, 0]

/-- C1 counterexample: on a buffer with a valid signature but truncated
trailing bytes, decode neither returns an Activity nor raises the
FormatError — it aborts with the uncaught RangeError of the out-of-bounds
record-header read. -/
theorem c1_counterexample :
    (FITParser.parseFIT id FITParser.emptyRegistry bufC1).1
      = .error .rangeError
    ∧ (bufC1.drop 8).take 4 = FITParser.fitSignature
    ∧ (Except.error FITParser.FitError.rangeError
        : Except FITParser.FitError FITParser.ActivityP)
      ≠ .error .formatError := ⟨rfl, rfl, by simp⟩


/-! ## Registry persistence across parse calls (C5) -/

/-- The schema registered by the definition message of fitBuf1: global
message number 20 (record), one 1-byte field with id 3 (heart rate),
little-endian. -/
def fitDemoSchema : FITParser.MsgDef := ⟨20, [⟨3, 1, 2⟩], true⟩

/-- A file whose payload is one definition message for local slot 0:
record header 0x40, reserved 0, architecture 0, global number 20,
one field (3, 1, 2). -/
def fitBuf1 : FITParser.Buf :=
  [14, 16, 0, 0, 9, 0, 0, 0, 0x2E, 0x46, 0x49, 0x54, 0, 0,
   0x40, 0, 0, 20, 0, 1, 3, 1, 2]

/-- A file whose payload is one data message for local slot 0 (header 0x00)
with the single body byte 150. -/
def fitBufD : FITParser.Buf :=
  [14, 16, 0, 0, 2, 0, 0, 0, 0x2E, 0x46, 0x49, 0x54, 0, 0,
   0x00, 150]

/-- The sample decoded from fitBufD under fitDemoSchema. -/
def fitDemoRecord : FITParser.FitRecord :=
  { timestamp := none, heartRate := .num 150, power := .nullv, speed := .nullv,
    cadence := .nullv, distance := .nullv, altitude := .nullv,
    latitude := .nullv, longitude := .nullv }

/-- The activity decoded from fitBufD under fitDemoSchema: one sample, with
the average heart rate back-filled from it by the derived-metrics pass. -/
def fitDemoActivity : FITParser.ActivityP :=
  { FITParser.initActivity with
    records := [fitDemoRecord],
    avgHeartRate := .num 150 }

/-- Number of decoded samples of a parse outcome. -/
def fitRecCount : Except FITParser.FitError FITParser.ActivityP → ℕ
  | .ok a => a.records.length
  | .error _ => 0

/-- Shared evaluation: parsing fitBufD on a parser instance whose registry
already maps local slot 0 to fitDemoSchema decodes the data message through
that schema and returns the one-sample activity. -/
lemma parse_fitBufD_with_schema (reg : FITParser.Registry)
    (h : reg 0 = some fitDemoSchema) :
    (FITParser.parseFIT id reg fitBufD).1 = .ok fitDemoActivity := by
  have hmsg : FITParser.parseMessage fitBufD 14
        ⟨reg, FITParser.initActivity⟩
      = .ok (16, ⟨reg, FITParser.processMessage 20
          (FITParser.readFields fitBufD true [⟨3, 1, 2⟩] 15
            FITParser.emptyValues).2 FITParser.initActivity⟩) := by
    unfold FITParser.parseMessage
    rw [show FITParser.byteAt fitBufD 14 = some 0 from rfl]
    dsimp only
    rw [if_neg (by decide : ¬((0 : ℕ) &&& 0x40 ≠ 0)),
      show (0 : ℕ) &&& 0x0F = 0 from by decide, h]
    rfl
  have hloop : FITParser.parseLoop fitBufD 16 16 14 ⟨reg, FITParser.initActivity⟩
      = (⟨reg, FITParser.processMessage 20
          (FITParser.readFields fitBufD true [⟨3, 1, 2⟩] 15
            FITParser.emptyValues).2 FITParser.initActivity⟩, false) := by
    show FITParser.parseLoop fitBufD 16 (15 + 1) 14 ⟨reg, FITParser.initActivity⟩ = _
    rw [FITParser.parseLoop]
    rw [if_pos (by omega : (14 : ℕ) < 16), hmsg]
    show FITParser.parseLoop fitBufD 16 (14 + 1) 16 _ = _
    rw [FITParser.parseLoop]
    rw [if_neg (by omega : ¬((16 : ℕ) < 16))]
  have hval : FITParser.calculateDerivedMetrics id
        (FITParser.processMessage 20
          (FITParser.readFields fitBufD true [⟨3, 1, 2⟩] 15
            FITParser.emptyValues).2 FITParser.initActivity)
      = { FITParser.initActivity with
          records := [fitDemoRecord],
          avgHeartRate := (FITParser.jsRoundJs (FITParser.jsDiv
            (FITParser.jsSum [FITParser.JsVal.num ((150 : ℕ) : ℚ)])
            ((1 : ℕ) : ℚ))) } := rfl
  have hr : FITParser.jsRoundJs (FITParser.jsDiv
        (FITParser.jsSum [FITParser.JsVal.num ((150 : ℕ) : ℚ)]) ((1 : ℕ) : ℚ))
      = .num 150 := by
    have hjr : jsRound (((0 : ℚ) + ((150 : ℕ) : ℚ)) / ((1 : ℕ) : ℚ)) = 150 :=
      jsRound_eq_of_bounds _ _ (by norm_num) (by norm_num)
    simp only [FITParser.jsRoundJs, FITParser.jsDiv, FITParser.jsSum,
      FITParser.jsAdd, FITParser.toNumber, List.foldl, hjr]
    norm_num
  unfold FITParser.parseFIT
  rw [show FITParser.parseHeaderBytes fitBufD
      = some (14, 2, [0x2E, 0x46, 0x49, 0x54]) from rfl]
  dsimp only
  rw [if_neg (by decide :
    ¬([0x2E, 0x46, 0x49, 0x54] ≠ FITParser.fitSignature))]
  rw [show (14 : ℕ) + 2 = 16 from rfl, hloop]
  dsimp only
  rw [hval, hr]
  rfl

/-- C5 counterexample: on a single FITParser instance, a first parse call
(fitBuf1) leaves its definition-message schema in the registry, and a second
parse call (fitBufD) on the same instance decodes a data message through
that left-over schema (one sample decoded), while the same buffer on a fresh
instance decodes nothing — so the registry is not empty at the start of
every parse invocation, and schemas registered during one decode are
consulted by a later decode. -/
theorem c5_counterexample :
    (FITParser.parseFIT id FITParser.emptyRegistry fitBuf1).2 0
        = some fitDemoSchema
    ∧ fitRecCount (FITParser.parseFIT id
        ((FITParser.parseFIT id FITParser.emptyRegistry fitBuf1).2) fitBufD).1 = 1
    ∧ fitRecCount (FITParser.parseFIT id FITParser.emptyRegistry fitBufD).1 = 0 := by
  refine ⟨rfl, ?_, rfl⟩
  rw [parse_fitBufD_with_schema _ rfl]
  rfl

/-- C5 (amended): the local-slot schema registry is per-instance state, not
per-decode state: it is initialized empty at construction only, and parse
never clears it, so any schema present in the registry when parse is called
— including one registered by an earlier decode on the same instance — is
consulted by the data messages of the new decode.  (The app constructs one
FITParser and reuses it for every file.) -/
theorem c5_registry_persists_across_decodes (reg : FITParser.Registry)
    (h : reg 0 = some fitDemoSchema) :
    (FITParser.parseFIT id reg fitBufD).1 = .ok fitDemoActivity :=
  parse_fitBufD_with_schema reg h

/-- C5 witness: instantiating the amended theorem with the registry left by
a first parse call on a fresh instance. -/
theorem c5_registry_persists_across_decodes_witness :
    (FITParser.parseFIT id
        ((FITParser.parseFIT id FITParser.emptyRegistry fitBuf1).2) fitBufD).1
      = .ok fitDemoActivity :=
  c5_registry_persists_across_decodes
    ((FITParser.parseFIT id FITParser.emptyRegistry fitBuf1).2) rfl

end MyTrainingOS
